import Mathlib

/-!
Shallow embedding of the Nigeria fiscal-monetary simulation engine
(`NigeriaFiscalMonetaryModel` in `app_V2.py`).  Python floats are modelled
as exact rationals (ℚ); every definition mirrors the corresponding source
function or loop-body statement.  The Python field names
`imports_gdp_ratio` / `exports_gdp_ratio` are rendered here as
`import_share_gdp` / `export_share_gdp`.
-/

/-- The economic condition returned by `assess_economic_condition`. -/
inductive Condition where
  | high_debt
  | high_inflation
  | recession
  | boom
  | normal
deriving DecidableEq, Inhabited, Repr

/-- The `monetary_response` argument (`"automatic" | "hawkish" | "dovish"`). -/
inductive MonetaryResponse where
  | automatic
  | hawkish
  | dovish
deriving DecidableEq, Inhabited, Repr

/-- The fixed model constants set in `NigeriaFiscalMonetaryModel.__init__`. -/
structure Model where
  initial_gdp : ℚ
  initial_debt : ℚ
  initial_deficit : ℚ
  oil_revenue : ℚ
  non_oil_revenue : ℚ
  total_revenue : ℚ
  total_spending : ℚ
  oil_price : ℚ
  oil_production : ℚ
  oil_revenue_per_dollar : ℚ
  policy_rate : ℚ
  inflation_target : ℚ
  current_inflation : ℚ
  exchange_rate : ℚ
  foreign_reserves : ℚ
  import_share_gdp : ℚ
  export_share_gdp : ℚ
  import_elasticity : ℚ
  export_elasticity : ℚ
  poverty_rate : ℚ
  unemployment_rate : ℚ
  informal_sector_share : ℚ
  income_inequality_gini : ℚ
  poor_consumption_share : ℚ
  rich_consumption_share : ℚ
  cyclically_adjusted_balance : ℚ
  automatic_stabilizers : ℚ

/-- The default (and only) parameterisation, from `__init__`. -/
def nigeriaModel : Model where
  initial_gdp := 450
  initial_debt := 140
  initial_deficit := 12
  oil_revenue := 25
  non_oil_revenue := 35
  total_revenue := 25 + 35
  total_spending := (25 + 35) + 12
  oil_price := 75
  oil_production := 14/10
  oil_revenue_per_dollar := 33/100
  policy_rate := 75/4
  inflation_target := 9
  current_inflation := 28
  exchange_rate := 1500
  foreign_reserves := 33
  import_share_gdp := 14/100
  export_share_gdp := 11/100
  import_elasticity := 8/10
  export_elasticity := 6/10
  poverty_rate := 40
  unemployment_rate := 4
  informal_sector_share := 55
  income_inequality_gini := 351/10
  poor_consumption_share := 15
  rich_consumption_share := 55
  cyclically_adjusted_balance := -8
  automatic_stabilizers := 2/10

/-- The policy levers passed to `calculate_impact` (the `years` argument is
kept separate, as in the Python signature). -/
structure PolicyInputs where
  tax_change : ℚ
  spending_change : ℚ
  growth_assumption : ℚ
  oil_price_shock : ℚ
  monetary_response : MonetaryResponse
  structural_reform : Bool
  progressive_tax : Bool
  pro_poor_spending : Bool
deriving Inhabited

/-- `assess_economic_condition(self, gdp, debt_to_gdp, inflation)`. -/
def assess_economic_condition (m : Model) (gdp debt_to_gdp inflation : ℚ) : Condition :=
  if debt_to_gdp > 60 then Condition.high_debt
  else if inflation > 25 then Condition.high_inflation
  else if gdp < m.initial_gdp * (98/100) then Condition.recession
  else if gdp > m.initial_gdp * (105/100) then Condition.boom
  else Condition.normal

/-- `get_multipliers(self, economic_condition)` returning
`(spending_multiplier, tax_multiplier)`. -/
def get_multipliers (economic_condition : Condition) : ℚ × ℚ :=
  match economic_condition with
  | Condition.recession => (8/10, 5/10)
  | Condition.boom => (4/10, 2/10)
  | Condition.high_debt => (3/10, 1/10)
  | Condition.high_inflation => (2/10, 1/10)
  | Condition.normal => (6/10, 3/10)

/-- `calculate_reform_boost(self, year, poverty_rate, informal_share)`. -/
def calculate_reform_boost (year : ℕ) (poverty_rate informal_share : ℚ) : ℚ :=
  let base_boost : ℚ := 2/10
  let time_multiplier : ℚ := min 2 (1 + (year : ℚ) * (3/10))
  let poverty_effect : ℚ := max 0 ((poverty_rate - 20) / 100)
  let informal_effect : ℚ := max 0 ((informal_share - 30) / 100)
  base_boost * time_multiplier * (1 + poverty_effect + informal_effect)

/-- `calculate_fiscal_incidence(...)` returning
`(distribution_impact, new_gini, new_poor_share, new_rich_share)`. -/
def calculate_fiscal_incidence (tax_change spending_change : ℚ)
    (progressive_tax pro_poor_spending : Bool)
    (gini poor_share rich_share : ℚ) (_economic_condition : Condition) :
    ℚ × ℚ × ℚ × ℚ :=
  let tax_part : ℚ :=
    if progressive_tax ∧ tax_change > 0 then -((5/10) * (tax_change / 10))
    else if ¬progressive_tax ∧ tax_change > 0 then (3/10) * (tax_change / 10)
    else 0
  let spend_part : ℚ :=
    if pro_poor_spending ∧ spending_change > 0 then -((8/10) * (spending_change / 10))
    else if ¬pro_poor_spending ∧ spending_change > 0 then -((2/10) * (spending_change / 10))
    else 0
  let distribution_impact : ℚ := tax_part + spend_part
  let new_gini : ℚ := max 20 (min 60 (gini + distribution_impact * 2))
  let shares : ℚ × ℚ :=
    if distribution_impact < 0 then
      let equality_gain : ℚ := |distribution_impact| * (5/10)
      (min 30 (poor_share + equality_gain), max 40 (rich_share - equality_gain))
    else
      let inequality_gain : ℚ := distribution_impact * (3/10)
      (max 10 (poor_share - inequality_gain), min 70 (rich_share + inequality_gain))
  (distribution_impact, new_gini, shares.1, shares.2)

/-- `calculate_fiscal_impulse(...)` returning
`(fiscal_impulse, new_structural_balance, discretionary_stimulus)`. -/
def calculate_fiscal_impulse (m : Model) (spending_change tax_change output_gap
    structural_balance : ℚ) (economic_condition : Condition) : ℚ × ℚ × ℚ :=
  let discretionary_stimulus : ℚ := spending_change - tax_change * (7/10)
  let cyclical_component : ℚ := -output_gap * m.automatic_stabilizers
  let fiscal_impulse : ℚ :=
    if economic_condition = Condition.recession then
      max (-5) (min 5 (discretionary_stimulus / 5 + cyclical_component))
    else if economic_condition = Condition.boom then
      max (-5) (min 5 (discretionary_stimulus / 8 + cyclical_component))
    else
      max (-5) (min 5 (discretionary_stimulus / 6 + cyclical_component))
  (fiscal_impulse, structural_balance - fiscal_impulse, discretionary_stimulus)

/-- `calculate_risk_premium(self, debt_to_gdp, reserves, structural_reform)`. -/
def calculate_risk_premium (m : Model) (debt_to_gdp reserves : ℚ)
    (structural_reform : Bool) : ℚ :=
  let debt_premium : ℚ := if debt_to_gdp > 50 then (debt_to_gdp - 50) * (15/100) else 0
  let reserve_cover : ℚ := reserves / (m.initial_gdp * m.import_share_gdp / 12)
  let reserve_premium : ℚ :=
    if reserve_cover < 3 then 3 else if reserve_cover < 6 then 3/2 else 0
  let reform_discount : ℚ := if structural_reform then -2 else 0
  max 0 (debt_premium + reserve_premium + reform_discount)

/-- The single-year rate change chosen inside `monetary_policy_reaction`,
split out by `response_type` branch. -/
def rate_change_of (m : Model) (inflation : ℚ) (economic_condition : Condition)
    (response_type : MonetaryResponse) (structural_reform : Bool) : ℚ :=
  let inflation_gap : ℚ := inflation - m.inflation_target
  let reform_effect : ℚ := if structural_reform then 2/10 else 0
  match response_type with
  | MonetaryResponse.hawkish =>
      if inflation_gap > 5 then min 4 (inflation_gap * (5/10)) - reform_effect
      else if inflation_gap > 2 then inflation_gap * (3/10) - reform_effect
      else 0
  | MonetaryResponse.dovish =>
      if inflation_gap > 10 then inflation_gap * (2/10) - reform_effect
      else if inflation_gap > 5 then inflation_gap * (1/10) - reform_effect
      else 0
  | MonetaryResponse.automatic =>
      if inflation_gap > 8 then inflation_gap * (4/10) - reform_effect
      else if inflation_gap > 4 then inflation_gap * (25/100) - reform_effect
      else if economic_condition = Condition.recession ∧ inflation_gap < 2 then
        -1 - reform_effect
      else 0

/-- `monetary_policy_reaction(...)` returning
`(monetary_impact, new_policy_rate, new_inflation)`.  The `fiscal_impact`
argument is unused in the source body and is kept for fidelity. -/
def monetary_policy_reaction (m : Model) (_fiscal_impact : ℚ) (inflation : ℚ)
    (economic_condition : Condition) (response_type : MonetaryResponse)
    (structural_reform : Bool) : ℚ × ℚ × ℚ :=
  let reform_effect : ℚ := if structural_reform then 2/10 else 0
  let rate_change : ℚ :=
    rate_change_of m inflation economic_condition response_type structural_reform
  let new_policy_rate : ℚ := max 12 (m.policy_rate + rate_change)
  let new_inflation : ℚ := inflation - rate_change * ((3/10) + reform_effect)
  let monetary_impact : ℚ := -rate_change * ((2/10) + reform_effect)
  (monetary_impact, new_policy_rate, new_inflation)

/-- The `reserve_effect` term of `exchange_rate_dynamics`, computed from
`reserve_adequacy = reserves / (self.initial_gdp * 0.1)`. -/
def reserve_effect_of (m : Model) (reserves : ℚ) : ℚ :=
  let reserve_adequacy : ℚ := reserves / (m.initial_gdp * (1/10))
  if reserve_adequacy < 3 then 50
  else if reserve_adequacy < 6 then 20
  else 0

/-- The `total_pressure` term of `exchange_rate_dynamics`. -/
def exchange_pressure_total (m : Model) (current_account oil_revenue reserves
    policy_rate : ℚ) (structural_reform : Bool) : ℚ :=
  let current_account_gap : ℚ := current_account / (m.initial_gdp * (1/10))
  let exchange_pressure : ℚ := -current_account_gap * 50
  let oil_effect : ℚ := (oil_revenue - m.oil_revenue) / m.oil_revenue * (-100)
  let interest_effect : ℚ := (policy_rate - 6) * (-2)
  let reform_effect : ℚ := if structural_reform then -20 else 0
  exchange_pressure + oil_effect + interest_effect
    + reserve_effect_of m reserves + reform_effect

/-- The clamped `exchange_rate_change` applied inside
`exchange_rate_dynamics`. -/
def exchange_rate_change_of (m : Model) (current_account oil_revenue reserves
    policy_rate : ℚ) (structural_reform : Bool) : ℚ :=
  max (-20) (min 20
    (exchange_pressure_total m current_account oil_revenue reserves
      policy_rate structural_reform / 10))

/-- `exchange_rate_dynamics(...)` returning
`(exchange_impact, new_exchange_rate, new_reserves, trade_balance_effect)`.
The `fiscal_impact` argument is unused in the source body. -/
def exchange_rate_dynamics (m : Model) (_fiscal_impact : ℚ)
    (current_account oil_revenue reserves policy_rate : ℚ)
    (structural_reform : Bool) : ℚ × ℚ × ℚ × ℚ :=
  let exchange_rate_change : ℚ :=
    exchange_rate_change_of m current_account oil_revenue reserves
      policy_rate structural_reform
  let new_exchange_rate : ℚ := m.exchange_rate * (1 + exchange_rate_change / 100)
  let intervention_intensity : ℚ := min 1 (|exchange_rate_change| / 10)
  let reserves_change : ℚ := -intervention_intensity * reserves * (1/10)
  let new_reserves : ℚ := max 5 (reserves + reserves_change)
  let exchange_impact : ℚ :=
    if exchange_rate_change > 5 then -1
    else if exchange_rate_change < -5 then 5/10
    else 0
  let trade_balance_effect : ℚ := if exchange_rate_change > 0 then 3/10 else -(2/10)
  (exchange_impact, new_exchange_rate, new_reserves, trade_balance_effect)

/-- The mutable loop state threaded year-to-year inside `calculate_impact`. -/
structure SimState where
  gdp : ℚ
  debt : ℚ
  non_oil_revenue : ℚ
  spending : ℚ
  policy_rate : ℚ
  inflation : ℚ
  exchange_rate : ℚ
  foreign_reserves : ℚ
  poverty_rate : ℚ
  unemployment_rate : ℚ
  informal_share : ℚ
  gini : ℚ
  poor_share : ℚ
  rich_share : ℚ
  output_gap : ℚ
  structural_balance : ℚ
  imports : ℚ
  exports : ℚ
  current_account : ℚ
  econ_condition : Condition

/-- One emitted row of the results DataFrame. -/
structure YearRecord where
  Year : ℕ
  GDP : ℚ
  Oil_Revenue : ℚ
  Non_Oil_Revenue : ℚ
  Total_Revenue : ℚ
  Spending : ℚ
  Debt_Service : ℚ
  Deficit : ℚ
  Debt : ℚ
  Debt_to_GDP : ℚ
  GDP_Growth : ℚ
  Interest_Rate : ℚ
  Policy_Rate : ℚ
  Inflation : ℚ
  Exchange_Rate : ℚ
  Foreign_Reserves : ℚ
  Imports : ℚ
  Exports : ℚ
  Current_Account : ℚ
  Oil_Price : ℚ
  Economic_Condition : Condition
  Crowding_Out_Effect : ℚ
  Monetary_Impact : ℚ
  Trade_Impact : ℚ
  Fiscal_Impact : ℚ
  Structural_Impact : ℚ
  Poverty_Rate : ℚ
  Unemployment_Rate : ℚ
  Informal_Sector_Share : ℚ
  Reform_Boost : ℚ
  Gini_Coefficient : ℚ
  Poor_Consumption_Share : ℚ
  Rich_Consumption_Share : ℚ
  Distribution_Impact : ℚ
  Equality_Boost : ℚ
  Fiscal_Impulse : ℚ
  Structural_Balance : ℚ
  Output_Gap : ℚ
  Discretionary_Stimulus : ℚ

namespace Step

/-- `reform_boost` for the year (0 when `structural_reform` is off). -/
def reform_boost (inp : PolicyInputs) (year : ℕ) (s : SimState) : ℚ :=
  if inp.structural_reform then
    calculate_reform_boost year s.poverty_rate s.informal_share
  else 0

/-- `effective_tax_change` for the year. -/
def effective_tax_change (inp : PolicyInputs) (year : ℕ) (s : SimState) : ℚ :=
  if inp.structural_reform then inp.tax_change + reform_boost inp year s * 2
  else inp.tax_change

/-- Updated `poverty_rate` (only the reform branch writes it). -/
def poverty_rate (inp : PolicyInputs) (year : ℕ) (s : SimState) : ℚ :=
  if inp.structural_reform then max 20 (s.poverty_rate - reform_boost inp year s * 3)
  else s.poverty_rate

/-- Updated `informal_share` (only the reform branch writes it). -/
def informal_share (inp : PolicyInputs) (year : ℕ) (s : SimState) : ℚ :=
  if inp.structural_reform then max 30 (s.informal_share - reform_boost inp year s * 2)
  else s.informal_share

/-- The `calculate_fiscal_incidence` call of the loop body. -/
def incidence (inp : PolicyInputs) (s : SimState) : ℚ × ℚ × ℚ × ℚ :=
  calculate_fiscal_incidence inp.tax_change inp.spending_change inp.progressive_tax
    inp.pro_poor_spending s.gini s.poor_share s.rich_share s.econ_condition

def distribution_impact (inp : PolicyInputs) (s : SimState) : ℚ := (incidence inp s).1

def new_gini (inp : PolicyInputs) (s : SimState) : ℚ := (incidence inp s).2.1

def new_poor_share (inp : PolicyInputs) (s : SimState) : ℚ := (incidence inp s).2.2.1

def new_rich_share (inp : PolicyInputs) (s : SimState) : ℚ := (incidence inp s).2.2.2

/-- The `calculate_fiscal_impulse` call of the loop body. -/
def impulse (m : Model) (inp : PolicyInputs) (s : SimState) : ℚ × ℚ × ℚ :=
  calculate_fiscal_impulse m inp.spending_change inp.tax_change s.output_gap
    s.structural_balance s.econ_condition

def fiscal_impulse (m : Model) (inp : PolicyInputs) (s : SimState) : ℚ :=
  (impulse m inp s).1

def new_structural_balance (m : Model) (inp : PolicyInputs) (s : SimState) : ℚ :=
  (impulse m inp s).2.1

def discretionary_stimulus (m : Model) (inp : PolicyInputs) (s : SimState) : ℚ :=
  (impulse m inp s).2.2

/-- `current_oil_price = self.oil_price * (1 + oil_price_shock/100)`. -/
def current_oil_price (m : Model) (inp : PolicyInputs) : ℚ :=
  m.oil_price * (1 + inp.oil_price_shock / 100)

/-- `oil_revenue = current_oil_price * self.oil_revenue_per_dollar`. -/
def oil_revenue (m : Model) (inp : PolicyInputs) : ℚ :=
  current_oil_price m inp * m.oil_revenue_per_dollar

/-- `non_oil_revenue *= (1 + effective_tax_change/100) * (1 + growth_assumption/100)`. -/
def non_oil_revenue (inp : PolicyInputs) (year : ℕ) (s : SimState) : ℚ :=
  s.non_oil_revenue * (1 + effective_tax_change inp year s / 100)
    * (1 + inp.growth_assumption / 100)

def total_revenue (m : Model) (inp : PolicyInputs) (year : ℕ) (s : SimState) : ℚ :=
  oil_revenue m inp + non_oil_revenue inp year s

/-- `spending *= (1 + spending_change/100) * spending_efficiency`. -/
def spending (inp : PolicyInputs) (s : SimState) : ℚ :=
  s.spending * (1 + inp.spending_change / 100)
    * (if inp.structural_reform then 11/10 else 1)

/-- `debt_to_gdp = (debt / gdp) * 100` (prior-year stocks). -/
def debt_to_gdp (s : SimState) : ℚ := s.debt / s.gdp * 100

def risk_premium (m : Model) (inp : PolicyInputs) (s : SimState) : ℚ :=
  calculate_risk_premium m (debt_to_gdp s) s.foreign_reserves inp.structural_reform

def effective_interest_rate (m : Model) (inp : PolicyInputs) (s : SimState) : ℚ :=
  s.policy_rate + risk_premium m inp s

def debt_service (m : Model) (inp : PolicyInputs) (s : SimState) : ℚ :=
  s.debt * (effective_interest_rate m inp s / 100)

def fiscal_impact (m : Model) (inp : PolicyInputs) (year : ℕ) (s : SimState) : ℚ :=
  (inp.spending_change * (spending inp s - debt_service m inp s)
      * (get_multipliers s.econ_condition).1
    + effective_tax_change inp year s * non_oil_revenue inp year s
      * (get_multipliers s.econ_condition).2) / s.gdp

def crowding_out_effect (m : Model) (inp : PolicyInputs) (s : SimState) : ℚ :=
  max 0 ((debt_service m inp s - debt_service m inp s * (s.debt / s.gdp)) / s.gdp) * 100

/-- The `monetary_policy_reaction` call of the loop body. -/
def monetary (m : Model) (inp : PolicyInputs) (year : ℕ) (s : SimState) : ℚ × ℚ × ℚ :=
  monetary_policy_reaction m (fiscal_impact m inp year s) s.inflation
    s.econ_condition inp.monetary_response inp.structural_reform

def monetary_impact (m : Model) (inp : PolicyInputs) (year : ℕ) (s : SimState) : ℚ :=
  (monetary m inp year s).1

def new_policy_rate (m : Model) (inp : PolicyInputs) (year : ℕ) (s : SimState) : ℚ :=
  (monetary m inp year s).2.1

def new_inflation (m : Model) (inp : PolicyInputs) (year : ℕ) (s : SimState) : ℚ :=
  (monetary m inp year s).2.2

/-- The `exchange_rate_dynamics` call of the loop body. -/
def exchange (m : Model) (inp : PolicyInputs) (year : ℕ) (s : SimState) :
    ℚ × ℚ × ℚ × ℚ :=
  exchange_rate_dynamics m (fiscal_impact m inp year s) s.current_account
    (oil_revenue m inp) s.foreign_reserves s.policy_rate inp.structural_reform

def exchange_rate_impact (m : Model) (inp : PolicyInputs) (year : ℕ) (s : SimState) : ℚ :=
  (exchange m inp year s).1

def new_exchange_rate (m : Model) (inp : PolicyInputs) (year : ℕ) (s : SimState) : ℚ :=
  (exchange m inp year s).2.1

def new_reserves (m : Model) (inp : PolicyInputs) (year : ℕ) (s : SimState) : ℚ :=
  (exchange m inp year s).2.2.1

def trade_balance_impact (m : Model) (inp : PolicyInputs) (year : ℕ) (s : SimState) : ℚ :=
  (exchange m inp year s).2.2.2

def import_effect (m : Model) (inp : PolicyInputs) (s : SimState) : ℚ :=
  -(inp.growth_assumption / 100) * m.import_elasticity * (s.imports / s.gdp) * 100

def export_effect (m : Model) (inp : PolicyInputs) (year : ℕ) (s : SimState) : ℚ :=
  max 0 ((new_exchange_rate m inp year s - s.exchange_rate) / s.exchange_rate)
    * m.export_elasticity * (s.exports / s.gdp) * 100

def net_trade_effect (m : Model) (inp : PolicyInputs) (year : ℕ) (s : SimState) : ℚ :=
  import_effect m inp s + export_effect m inp year s

/-- `structural_impact = reform_boost`. -/
def structural_impact (inp : PolicyInputs) (year : ℕ) (s : SimState) : ℚ :=
  reform_boost inp year s

/-- `equality_boost = distribution_impact * 0.1`. -/
def equality_boost (inp : PolicyInputs) (s : SimState) : ℚ :=
  distribution_impact inp s * (1/10)

def effective_growth (m : Model) (inp : PolicyInputs) (year : ℕ) (s : SimState) : ℚ :=
  inp.growth_assumption + fiscal_impact m inp year s + monetary_impact m inp year s
    + exchange_rate_impact m inp year s + net_trade_effect m inp year s
    + structural_impact inp year s + equality_boost inp s
    - crowding_out_effect m inp s

/-- Updated `output_gap`. -/
def output_gap (m : Model) (inp : PolicyInputs) (year : ℕ) (s : SimState) : ℚ :=
  (effective_growth m inp year s - inp.growth_assumption) * (8/10)

/-- `new_unemployment = max(2.0, unemployment_rate + unemployment_change)`. -/
def new_unemployment (m : Model) (inp : PolicyInputs) (year : ℕ) (s : SimState) : ℚ :=
  max 2 (s.unemployment_rate
    + (-(5/10) * (effective_growth m inp year s - inp.growth_assumption)))

/-- Updated `gdp`. -/
def gdp (m : Model) (inp : PolicyInputs) (year : ℕ) (s : SimState) : ℚ :=
  s.gdp * (1 + effective_growth m inp year s / 100)

def deficit (m : Model) (inp : PolicyInputs) (year : ℕ) (s : SimState) : ℚ :=
  spending inp s + debt_service m inp s - total_revenue m inp year s

/-- Updated `debt`. -/
def debt (m : Model) (inp : PolicyInputs) (year : ℕ) (s : SimState) : ℚ :=
  s.debt + deficit m inp year s

/-- `debt_to_gdp` recomputed after the GDP update. -/
def debt_to_gdp_after (m : Model) (inp : PolicyInputs) (year : ℕ) (s : SimState) : ℚ :=
  debt m inp year s / gdp m inp year s * 100

/-- Updated `imports` (note the source uses `effective_growth` here). -/
def imports_after (m : Model) (inp : PolicyInputs) (year : ℕ) (s : SimState) : ℚ :=
  gdp m inp year s * m.import_share_gdp
    * (1 + effective_growth m inp year s / 100 * m.import_elasticity)

/-- Updated `exports`. -/
def exports_after (m : Model) (inp : PolicyInputs) (year : ℕ) (s : SimState) : ℚ :=
  gdp m inp year s * m.export_share_gdp * (1 + export_effect m inp year s / 100)

def current_account_after (m : Model) (inp : PolicyInputs) (year : ℕ) (s : SimState) : ℚ :=
  exports_after m inp year s - imports_after m inp year s

/-- Economic condition reassessed at the end of the year. -/
def econ_after (m : Model) (inp : PolicyInputs) (year : ℕ) (s : SimState) : Condition :=
  assess_economic_condition m (gdp m inp year s) (debt_to_gdp_after m inp year s)
    (new_inflation m inp year s)

/-- The row appended to `results` at the end of the loop body. -/
def yearRecord (m : Model) (inp : PolicyInputs) (year : ℕ) (s : SimState) : YearRecord where
  Year := year + 1
  GDP := gdp m inp year s
  Oil_Revenue := oil_revenue m inp
  Non_Oil_Revenue := non_oil_revenue inp year s
  Total_Revenue := total_revenue m inp year s
  Spending := spending inp s
  Debt_Service := debt_service m inp s
  Deficit := deficit m inp year s
  Debt := debt m inp year s
  Debt_to_GDP := debt_to_gdp_after m inp year s
  GDP_Growth := effective_growth m inp year s
  Interest_Rate := effective_interest_rate m inp s
  Policy_Rate := new_policy_rate m inp year s
  Inflation := new_inflation m inp year s
  Exchange_Rate := new_exchange_rate m inp year s
  Foreign_Reserves := new_reserves m inp year s
  Imports := imports_after m inp year s
  Exports := exports_after m inp year s
  Current_Account := current_account_after m inp year s
  Oil_Price := current_oil_price m inp
  Economic_Condition := econ_after m inp year s
  Crowding_Out_Effect := crowding_out_effect m inp s
  Monetary_Impact := monetary_impact m inp year s
  Trade_Impact := net_trade_effect m inp year s
  Fiscal_Impact := fiscal_impact m inp year s
  Structural_Impact := structural_impact inp year s
  Poverty_Rate := poverty_rate inp year s
  Unemployment_Rate := new_unemployment m inp year s
  Informal_Sector_Share := informal_share inp year s
  Reform_Boost := reform_boost inp year s
  Gini_Coefficient := new_gini inp s
  Poor_Consumption_Share := new_poor_share inp s
  Rich_Consumption_Share := new_rich_share inp s
  Distribution_Impact := distribution_impact inp s
  Equality_Boost := equality_boost inp s
  Fiscal_Impulse := fiscal_impulse m inp s
  Structural_Balance := new_structural_balance m inp s
  Output_Gap := output_gap m inp year s
  Discretionary_Stimulus := discretionary_stimulus m inp s

/-- The loop state at the start of the next iteration. -/
def nextState (m : Model) (inp : PolicyInputs) (year : ℕ) (s : SimState) : SimState where
  gdp := gdp m inp year s
  debt := debt m inp year s
  non_oil_revenue := non_oil_revenue inp year s
  spending := spending inp s
  policy_rate := new_policy_rate m inp year s
  inflation := new_inflation m inp year s
  exchange_rate := new_exchange_rate m inp year s
  foreign_reserves := new_reserves m inp year s
  poverty_rate := poverty_rate inp year s
  unemployment_rate := new_unemployment m inp year s
  informal_share := informal_share inp year s
  gini := new_gini inp s
  poor_share := new_poor_share inp s
  rich_share := new_rich_share inp s
  output_gap := output_gap m inp year s
  structural_balance := new_structural_balance m inp s
  imports := imports_after m inp year s
  exports := exports_after m inp year s
  current_account := current_account_after m inp year s
  econ_condition := econ_after m inp year s

end Step

/-- The loop-local variables as initialised before `for year in range(years)`. -/
def initState (m : Model) : SimState where
  gdp := m.initial_gdp
  debt := m.initial_debt
  non_oil_revenue := m.non_oil_revenue
  spending := m.total_spending
  policy_rate := m.policy_rate
  inflation := m.current_inflation
  exchange_rate := m.exchange_rate
  foreign_reserves := m.foreign_reserves
  poverty_rate := m.poverty_rate
  unemployment_rate := m.unemployment_rate
  informal_share := m.informal_sector_share
  gini := m.income_inequality_gini
  poor_share := m.poor_consumption_share
  rich_share := m.rich_consumption_share
  output_gap := 0
  structural_balance := m.cyclically_adjusted_balance
  imports := m.initial_gdp * m.import_share_gdp
  exports := m.initial_gdp * m.export_share_gdp
  current_account := m.initial_gdp * m.export_share_gdp - m.initial_gdp * m.import_share_gdp
  econ_condition :=
    assess_economic_condition m m.initial_gdp (m.initial_debt / m.initial_gdp)
      m.current_inflation

/-- The loop state entering iteration `year` of `calculate_impact`. -/
def stateAt (m : Model) (inp : PolicyInputs) : ℕ → SimState
  | 0 => initState m
  | n + 1 => Step.nextState m inp n (stateAt m inp n)

/-- `calculate_impact(...)`: the ordered list of yearly rows. -/
def calculate_impact (m : Model) (inp : PolicyInputs) (years : ℕ) : List YearRecord :=
  (List.range years).map fun year => Step.yearRecord m inp year (stateAt m inp year)

/-! ### Basic facts about the orchestrator -/

theorem calculate_impact_length (m : Model) (inp : PolicyInputs) (years : ℕ) :
    (calculate_impact m inp years).length = years := by
  simp [calculate_impact]

theorem calculate_impact_getElem (m : Model) (inp : PolicyInputs) {years i : ℕ}
    (h : i < years) :
    (calculate_impact m inp years)[i]? = some (Step.yearRecord m inp i (stateAt m inp i)) := by
  simp [calculate_impact, List.getElem?_map, List.getElem?_range, h]

theorem calculate_impact_getElem_inv (m : Model) (inp : PolicyInputs) {years i : ℕ}
    {r : YearRecord} (h : (calculate_impact m inp years)[i]? = some r) :
    i < years ∧ r = Step.yearRecord m inp i (stateAt m inp i) := by
  by_cases hi : i < years
  · refine ⟨hi, ?_⟩
    rw [calculate_impact_getElem m inp hi] at h
    exact (Option.some_inj.mp h).symm
  · rw [calculate_impact, List.getElem?_map,
      List.getElem?_eq_none (by simpa using Nat.le_of_not_lt hi)] at h
    simp at h

theorem calculate_impact_mem_inv (m : Model) (inp : PolicyInputs) {years : ℕ}
    {r : YearRecord} (h : r ∈ calculate_impact m inp years) :
    ∃ i, i < years ∧ r = Step.yearRecord m inp i (stateAt m inp i) := by
  simp only [calculate_impact, List.mem_map, List.mem_range] at h
  obtain ⟨i, hi, hr⟩ := h
  exact ⟨i, hi, hr.symm⟩

/-! ### Componentwise bounds used by the invariant claims -/

theorem Step.poverty_rate_ge (inp : PolicyInputs) (year : ℕ) (s : SimState)
    (h : 20 ≤ s.poverty_rate) : 20 ≤ Step.poverty_rate inp year s := by
  unfold Step.poverty_rate
  split
  · exact le_max_left _ _
  · exact h

theorem Step.informal_share_ge (inp : PolicyInputs) (year : ℕ) (s : SimState)
    (h : 30 ≤ s.informal_share) : 30 ≤ Step.informal_share inp year s := by
  unfold Step.informal_share
  split
  · exact le_max_left _ _
  · exact h

theorem Step.new_policy_rate_ge (m : Model) (inp : PolicyInputs) (year : ℕ)
    (s : SimState) : 12 ≤ Step.new_policy_rate m inp year s := by
  unfold Step.new_policy_rate Step.monetary monetary_policy_reaction
  exact le_max_left _ _

theorem Step.new_reserves_ge (m : Model) (inp : PolicyInputs) (year : ℕ)
    (s : SimState) : 5 ≤ Step.new_reserves m inp year s := by
  unfold Step.new_reserves Step.exchange exchange_rate_dynamics
  exact le_max_left _ _

theorem gini_bounds (tax_change spending_change : ℚ) (pt pps : Bool)
    (gini poor_share rich_share : ℚ) (ec : Condition) :
    20 ≤ (calculate_fiscal_incidence tax_change spending_change pt pps gini
        poor_share rich_share ec).2.1
      ∧ (calculate_fiscal_incidence tax_change spending_change pt pps gini
        poor_share rich_share ec).2.1 ≤ 60 := by
  unfold calculate_fiscal_incidence
  exact ⟨le_max_left _ _, max_le (by norm_num) (min_le_left _ _)⟩

theorem fiscal_impulse_bounds (m : Model) (spending_change tax_change output_gap
    structural_balance : ℚ) (ec : Condition) :
    -5 ≤ (calculate_fiscal_impulse m spending_change tax_change output_gap
        structural_balance ec).1
      ∧ (calculate_fiscal_impulse m spending_change tax_change output_gap
        structural_balance ec).1 ≤ 5 := by
  unfold calculate_fiscal_impulse
  refine ⟨?_, ?_⟩ <;> dsimp only <;> split_ifs <;>
    first
      | exact le_max_left _ _
      | exact max_le (by norm_num) (min_le_left _ _)

theorem exchange_rate_change_bounds (m : Model) (current_account oil_revenue
    reserves policy_rate : ℚ) (structural_reform : Bool) :
    -20 ≤ exchange_rate_change_of m current_account oil_revenue reserves
        policy_rate structural_reform
      ∧ exchange_rate_change_of m current_account oil_revenue reserves
        policy_rate structural_reform ≤ 20 := by
  unfold exchange_rate_change_of
  exact ⟨le_max_left _ _, max_le (by norm_num) (min_le_left _ _)⟩

/-! ### Invariants of the threaded state (default model) -/

theorem stateAt_poverty_ge (inp : PolicyInputs) (n : ℕ) :
    20 ≤ (stateAt nigeriaModel inp n).poverty_rate := by
  induction n with
  | zero => norm_num [stateAt, initState, nigeriaModel]
  | succ k ih => exact Step.poverty_rate_ge inp k _ ih

theorem stateAt_informal_ge (inp : PolicyInputs) (n : ℕ) :
    30 ≤ (stateAt nigeriaModel inp n).informal_share := by
  induction n with
  | zero => norm_num [stateAt, initState, nigeriaModel]
  | succ k ih => exact Step.informal_share_ge inp k _ ih

theorem stateAt_reserves_ge (inp : PolicyInputs) (n : ℕ) :
    5 ≤ (stateAt nigeriaModel inp n).foreign_reserves := by
  induction n with
  | zero => norm_num [stateAt, initState, nigeriaModel]
  | succ k _ => exact Step.new_reserves_ge nigeriaModel inp k _

/-! ### Claim C1: regime classifier priority order -/

/-- C1: `assess_economic_condition` is a pure function of
(gdp, debt_to_gdp, inflation) into the five regimes, evaluated in strict
priority order: `debt_to_gdp > 60` yields `high_debt` regardless of the
other inputs; otherwise `inflation > 25` yields `high_inflation`; otherwise
`gdp < 0.98 * initial_gdp` yields `recession`; otherwise
`gdp > 1.05 * initial_gdp` yields `boom`; otherwise `normal`.  In
particular `debt_to_gdp = 65` is always classified `high_debt`. -/
theorem claim_C1_regime_classifier (gdp dtg infl : ℚ) :
    (assess_economic_condition nigeriaModel gdp dtg infl = Condition.high_debt
      ∨ assess_economic_condition nigeriaModel gdp dtg infl = Condition.high_inflation
      ∨ assess_economic_condition nigeriaModel gdp dtg infl = Condition.recession
      ∨ assess_economic_condition nigeriaModel gdp dtg infl = Condition.boom
      ∨ assess_economic_condition nigeriaModel gdp dtg infl = Condition.normal)
    ∧ (60 < dtg →
        assess_economic_condition nigeriaModel gdp dtg infl = Condition.high_debt)
    ∧ (dtg ≤ 60 → 25 < infl →
        assess_economic_condition nigeriaModel gdp dtg infl = Condition.high_inflation)
    ∧ (dtg ≤ 60 → infl ≤ 25 → gdp < nigeriaModel.initial_gdp * (98/100) →
        assess_economic_condition nigeriaModel gdp dtg infl = Condition.recession)
    ∧ (dtg ≤ 60 → infl ≤ 25 → ¬gdp < nigeriaModel.initial_gdp * (98/100) →
        nigeriaModel.initial_gdp * (105/100) < gdp →
        assess_economic_condition nigeriaModel gdp dtg infl = Condition.boom)
    ∧ (dtg ≤ 60 → infl ≤ 25 → ¬gdp < nigeriaModel.initial_gdp * (98/100) →
        ¬nigeriaModel.initial_gdp * (105/100) < gdp →
        assess_economic_condition nigeriaModel gdp dtg infl = Condition.normal)
    ∧ assess_economic_condition nigeriaModel gdp 65 infl = Condition.high_debt := by
  refine ⟨?_, ?_, ?_, ?_, ?_, ?_, ?_⟩
  · unfold assess_economic_condition
    split_ifs <;> simp
  · intro h
    unfold assess_economic_condition
    rw [if_pos h]
  · intro h1 h2
    unfold assess_economic_condition
    rw [if_neg (not_lt.mpr h1), if_pos h2]
  · intro h1 h2 h3
    unfold assess_economic_condition
    rw [if_neg (not_lt.mpr h1), if_neg (not_lt.mpr h2), if_pos h3]
  · intro h1 h2 h3 h4
    unfold assess_economic_condition
    rw [if_neg (not_lt.mpr h1), if_neg (not_lt.mpr h2), if_neg h3, if_pos h4]
  · intro h1 h2 h3 h4
    unfold assess_economic_condition
    rw [if_neg (not_lt.mpr h1), if_neg (not_lt.mpr h2), if_neg h3, if_neg h4]
  · unfold assess_economic_condition
    rw [if_pos (by norm_num : (65 : ℚ) > 60)]

/-- Witness for C1 at concrete inputs: debt-to-GDP 65 dominates, and a
below-0.98-baseline GDP with low debt and inflation is a recession. -/
theorem claim_C1_witness :
    assess_economic_condition nigeriaModel 500 65 3 = Condition.high_debt
      ∧ assess_economic_condition nigeriaModel 440 30 10 = Condition.recession := by
  constructor
  · exact (claim_C1_regime_classifier 500 65 3).2.2.2.2.2.2
  · exact (claim_C1_regime_classifier 440 30 10).2.2.2.1 (by norm_num) (by norm_num)
      (by norm_num [nigeriaModel])

/-! ### Claim C5: year-1 revenue in the end-to-end scenario -/

/-- The spec's end-to-end scenario inputs: tax_change=10, spending_change=5,
growth_assumption=3, oil_price_shock=0, no reform, default stance. -/
def scenarioInputs : PolicyInputs :=
  ⟨10, 5, 3, 0, MonetaryResponse.automatic, false, false, false⟩

/-- C5: with the default parameter set and the scenario inputs, the first
simulated year records non_oil_revenue = 35·1.10·1.03 = 39.655,
oil_revenue = 75·0.33 = 24.75 and total_revenue = 64.405. -/
theorem claim_C5_year1_revenue :
    (calculate_impact nigeriaModel scenarioInputs 5)[0]?.map
        (fun r => (r.Non_Oil_Revenue, r.Oil_Revenue, r.Total_Revenue))
      = some (39655/1000, 2475/100, 64405/1000) := by
  rw [calculate_impact_getElem nigeriaModel scenarioInputs (by norm_num)]
  norm_num [Option.map_some', Step.yearRecord, Step.non_oil_revenue, Step.total_revenue,
    Step.oil_revenue, Step.current_oil_price, Step.effective_tax_change,
    Step.reform_boost, stateAt, initState, nigeriaModel, scenarioInputs]

/-- The clamped `exchange_rate_change` applied in a given year of the loop
(the value used inside `Step.exchange`). -/
def Step.exchange_rate_change (m : Model) (inp : PolicyInputs) (s : SimState) : ℚ :=
  exchange_rate_change_of m s.current_account (Step.oil_revenue m inp)
    s.foreign_reserves s.policy_rate inp.structural_reform

/-- The reserve update of `exchange_rate_dynamics` keeps reserves in
`[max(5, 0.9·reserves), reserves]` whenever reserves start at least 5. -/
theorem reserves_update_bounds (m : Model) (fi ca oil res pr : ℚ) (sr : Bool)
    (h : 5 ≤ res) :
    5 ≤ (exchange_rate_dynamics m fi ca oil res pr sr).2.2.1
      ∧ (exchange_rate_dynamics m fi ca oil res pr sr).2.2.1 ≤ res
      ∧ (9/10) * res ≤ (exchange_rate_dynamics m fi ca oil res pr sr).2.2.1 := by
  unfold exchange_rate_dynamics
  set c := exchange_rate_change_of m ca oil res pr sr with hc
  dsimp only
  have h1 : 0 ≤ min 1 (|c| / 10) := le_min (by norm_num) (by positivity)
  have h2 : min 1 (|c| / 10) ≤ 1 := min_le_left _ _
  refine ⟨le_max_left _ _, max_le h ?_, le_trans ?_ (le_max_right _ _)⟩
  · nlinarith
  · nlinarith

theorem Step.new_reserves_le (m : Model) (inp : PolicyInputs) (year : ℕ)
    (s : SimState) (h : 5 ≤ s.foreign_reserves) :
    Step.new_reserves m inp year s ≤ s.foreign_reserves :=
  (reserves_update_bounds m (Step.fiscal_impact m inp year s) s.current_account
    (Step.oil_revenue m inp) s.foreign_reserves s.policy_rate
    inp.structural_reform h).2.1

theorem Step.new_reserves_ge_nine_tenths (m : Model) (inp : PolicyInputs) (year : ℕ)
    (s : SimState) (h : 5 ≤ s.foreign_reserves) :
    (9/10) * s.foreign_reserves ≤ Step.new_reserves m inp year s :=
  (reserves_update_bounds m (Step.fiscal_impact m inp year s) s.current_account
    (Step.oil_revenue m inp) s.foreign_reserves s.policy_rate
    inp.structural_reform h).2.2

/-- With reform disabled, the loop never writes `poverty_rate`. -/
theorem stateAt_poverty_eq (inp : PolicyInputs) (hr : inp.structural_reform = false)
    (n : ℕ) : (stateAt nigeriaModel inp n).poverty_rate = 40 := by
  induction n with
  | zero => norm_num [stateAt, initState, nigeriaModel]
  | succ k ih =>
      show Step.poverty_rate inp k (stateAt nigeriaModel inp k) = 40
      rw [Step.poverty_rate, hr]
      simpa using ih

/-- With reform disabled, the loop never writes `informal_share`. -/
theorem stateAt_informal_eq (inp : PolicyInputs) (hr : inp.structural_reform = false)
    (n : ℕ) : (stateAt nigeriaModel inp n).informal_share = 55 := by
  induction n with
  | zero => norm_num [stateAt, initState, nigeriaModel]
  | succ k ih =>
      show Step.informal_share inp k (stateAt nigeriaModel inp k) = 55
      rw [Step.informal_share, hr]
      simpa using ih

/-! ### Claim C2: per-year bounds -/

/-- C2: in every simulated year of any run, the recorded poverty rate is
≥ 20, the informal share ≥ 30, the policy rate ≥ 12, foreign reserves ≥ 5,
the Gini coefficient lies in [20, 60], the fiscal impulse lies in [−5, 5],
and the exchange-rate change applied that year lies in [−20, 20]. -/
theorem claim_C2_yearly_bounds (inp : PolicyInputs) (years i : ℕ) (r : YearRecord)
    (h : (calculate_impact nigeriaModel inp years)[i]? = some r) :
    20 ≤ r.Poverty_Rate ∧ 30 ≤ r.Informal_Sector_Share ∧ 12 ≤ r.Policy_Rate
      ∧ 5 ≤ r.Foreign_Reserves
      ∧ (20 ≤ r.Gini_Coefficient ∧ r.Gini_Coefficient ≤ 60)
      ∧ (-5 ≤ r.Fiscal_Impulse ∧ r.Fiscal_Impulse ≤ 5)
      ∧ (-20 ≤ Step.exchange_rate_change nigeriaModel inp (stateAt nigeriaModel inp i)
          ∧ Step.exchange_rate_change nigeriaModel inp (stateAt nigeriaModel inp i) ≤ 20) := by
  obtain ⟨hi, rfl⟩ := calculate_impact_getElem_inv nigeriaModel inp h
  refine ⟨Step.poverty_rate_ge inp i _ (stateAt_poverty_ge inp i),
    Step.informal_share_ge inp i _ (stateAt_informal_ge inp i),
    Step.new_policy_rate_ge nigeriaModel inp i _,
    Step.new_reserves_ge nigeriaModel inp i _,
    gini_bounds inp.tax_change inp.spending_change inp.progressive_tax
      inp.pro_poor_spending (stateAt nigeriaModel inp i).gini
      (stateAt nigeriaModel inp i).poor_share (stateAt nigeriaModel inp i).rich_share
      (stateAt nigeriaModel inp i).econ_condition,
    fiscal_impulse_bounds nigeriaModel inp.spending_change inp.tax_change
      (stateAt nigeriaModel inp i).output_gap
      (stateAt nigeriaModel inp i).structural_balance
      (stateAt nigeriaModel inp i).econ_condition,
    exchange_rate_change_bounds nigeriaModel (stateAt nigeriaModel inp i).current_account
      (Step.oil_revenue nigeriaModel inp) (stateAt nigeriaModel inp i).foreign_reserves
      (stateAt nigeriaModel inp i).policy_rate inp.structural_reform⟩

/-- Inputs with every lever at zero and every flag off. -/
def zeroInputs : PolicyInputs :=
  ⟨0, 0, 0, 0, MonetaryResponse.automatic, false, false, false⟩

/-- The first-year record of the all-zero run. -/
def record0 : YearRecord :=
  Step.yearRecord nigeriaModel zeroInputs 0 (stateAt nigeriaModel zeroInputs 0)

theorem claim_C2_witness :
    20 ≤ record0.Poverty_Rate ∧ 30 ≤ record0.Informal_Sector_Share
      ∧ 12 ≤ record0.Policy_Rate ∧ 5 ≤ record0.Foreign_Reserves
      ∧ (20 ≤ record0.Gini_Coefficient ∧ record0.Gini_Coefficient ≤ 60)
      ∧ (-5 ≤ record0.Fiscal_Impulse ∧ record0.Fiscal_Impulse ≤ 5)
      ∧ (-20 ≤ Step.exchange_rate_change nigeriaModel zeroInputs
            (stateAt nigeriaModel zeroInputs 0)
          ∧ Step.exchange_rate_change nigeriaModel zeroInputs
            (stateAt nigeriaModel zeroInputs 0) ≤ 20) :=
  claim_C2_yearly_bounds zeroInputs 1 0 record0
    (calculate_impact_getElem nigeriaModel zeroInputs (by norm_num))

/-! ### Claim C9: frame property of the reform branch -/

/-- C9: with structural reform disabled, every simulated year records the
initial poverty rate 40, the initial informal share 55, and a reform boost
and structural impact of exactly 0. -/
theorem claim_C9_no_reform_frame (inp : PolicyInputs)
    (hr : inp.structural_reform = false) (years : ℕ) (r : YearRecord)
    (h : r ∈ calculate_impact nigeriaModel inp years) :
    r.Poverty_Rate = 40 ∧ r.Informal_Sector_Share = 55
      ∧ r.Reform_Boost = 0 ∧ r.Structural_Impact = 0 := by
  obtain ⟨i, hi, rfl⟩ := calculate_impact_mem_inv nigeriaModel inp h
  refine ⟨?_, ?_, ?_, ?_⟩
  · show Step.poverty_rate inp i (stateAt nigeriaModel inp i) = 40
    rw [Step.poverty_rate, hr]
    simpa using stateAt_poverty_eq inp hr i
  · show Step.informal_share inp i (stateAt nigeriaModel inp i) = 55
    rw [Step.informal_share, hr]
    simpa using stateAt_informal_eq inp hr i
  · show Step.reform_boost inp i (stateAt nigeriaModel inp i) = 0
    rw [Step.reform_boost, hr]
    simp
  · show Step.structural_impact inp i (stateAt nigeriaModel inp i) = 0
    rw [Step.structural_impact, Step.reform_boost, hr]
    simp

theorem claim_C9_witness :
    record0.Poverty_Rate = 40 ∧ record0.Informal_Sector_Share = 55
      ∧ record0.Reform_Boost = 0 ∧ record0.Structural_Impact = 0 :=
  claim_C9_no_reform_frame zeroInputs rfl 1 record0
    (by
      rw [show calculate_impact nigeriaModel zeroInputs 1
          = [record0] by simp [calculate_impact, List.range_succ, record0]]
      exact List.mem_singleton.mpr rfl)

/-- Unfolding lemma: the policy-rate update only reads the state's
inflation and economic condition, and is floored at 12 over the model's
base rate. -/
theorem Step.new_policy_rate_eq (m : Model) (inp : PolicyInputs) (year : ℕ)
    (s : SimState) :
    Step.new_policy_rate m inp year s
      = max 12 (m.policy_rate
          + rate_change_of m s.inflation s.econ_condition inp.monetary_response
            inp.structural_reform) := rfl

/-- The second record of the all-zero run. -/
def record1z : YearRecord :=
  Step.yearRecord nigeriaModel zeroInputs 1 (stateAt nigeriaModel zeroInputs 1)

/-! ### Claim C3: policy rate recomputed from the original base each year -/

/-- C3: in every simulated year and for every monetary stance, the recorded
policy rate equals `max(12.0, base_policy_rate + rate_change)` where
`base_policy_rate` is the original baseline 18.75 (`self.policy_rate`,
never mutated) and `rate_change` is that single year's reaction; moreover
the new policy rate is independent of the policy rate carried in the
threaded state, so rate changes never compound. -/
theorem claim_C3_policy_rate_from_base (inp : PolicyInputs) (years i : ℕ)
    (r : YearRecord)
    (h : (calculate_impact nigeriaModel inp years)[i]? = some r) :
    r.Policy_Rate
      = max 12 ((1875/100 : ℚ)
          + rate_change_of nigeriaModel (stateAt nigeriaModel inp i).inflation
            (stateAt nigeriaModel inp i).econ_condition inp.monetary_response
            inp.structural_reform)
    ∧ ∀ (s : SimState) (x : ℚ),
        Step.new_policy_rate nigeriaModel inp i { s with policy_rate := x }
          = Step.new_policy_rate nigeriaModel inp i s := by
  obtain ⟨hi, rfl⟩ := calculate_impact_getElem_inv nigeriaModel inp h
  constructor
  · show Step.new_policy_rate nigeriaModel inp i (stateAt nigeriaModel inp i) = _
    rw [Step.new_policy_rate_eq]
    norm_num [nigeriaModel]
  · intro s x
    rw [Step.new_policy_rate_eq, Step.new_policy_rate_eq]

theorem claim_C3_witness :
    record0.Policy_Rate
      = max 12 ((1875/100 : ℚ)
          + rate_change_of nigeriaModel (stateAt nigeriaModel zeroInputs 0).inflation
            (stateAt nigeriaModel zeroInputs 0).econ_condition
            zeroInputs.monetary_response zeroInputs.structural_reform)
    ∧ Step.new_policy_rate nigeriaModel zeroInputs 0
        { initState nigeriaModel with policy_rate := 99 }
      = Step.new_policy_rate nigeriaModel zeroInputs 0 (initState nigeriaModel) := by
  have h := claim_C3_policy_rate_from_base zeroInputs 1 0 record0
    (calculate_impact_getElem nigeriaModel zeroInputs (by norm_num))
  exact ⟨h.1, h.2 (initState nigeriaModel) 99⟩

/-! ### Claim C10: reserves are non-increasing and floored at 5 -/

/-- C10: along any run, the recorded foreign-reserves series is
monotonically non-increasing: every year's reserves are at least 5, at most
the previous year's value, and at least nine tenths of it (the drawdown is
capped at 10% per year); the first year's value is at most the initial 33
and at least 5. -/
theorem claim_C10_reserves_monotone (inp : PolicyInputs) (years i : ℕ)
    (r r' : YearRecord)
    (h : (calculate_impact nigeriaModel inp years)[i]? = some r)
    (h' : (calculate_impact nigeriaModel inp years)[i + 1]? = some r') :
    (5 ≤ r'.Foreign_Reserves ∧ r'.Foreign_Reserves ≤ r.Foreign_Reserves
      ∧ (9/10) * r.Foreign_Reserves ≤ r'.Foreign_Reserves)
    ∧ ∀ r0 : YearRecord,
        (calculate_impact nigeriaModel inp years)[0]? = some r0 →
        5 ≤ r0.Foreign_Reserves ∧ r0.Foreign_Reserves ≤ 33 := by
  obtain ⟨hi, rfl⟩ := calculate_impact_getElem_inv nigeriaModel inp h
  obtain ⟨hi', hr'⟩ := calculate_impact_getElem_inv nigeriaModel inp h'
  constructor
  · have hkey : (Step.yearRecord nigeriaModel inp i
        (stateAt nigeriaModel inp i)).Foreign_Reserves
        = (stateAt nigeriaModel inp (i + 1)).foreign_reserves := rfl
    subst hr'
    refine ⟨Step.new_reserves_ge nigeriaModel inp (i + 1) _, ?_, ?_⟩
    · rw [hkey]
      exact Step.new_reserves_le nigeriaModel inp (i + 1) _
        (stateAt_reserves_ge inp (i + 1))
    · rw [hkey]
      exact Step.new_reserves_ge_nine_tenths nigeriaModel inp (i + 1) _
        (stateAt_reserves_ge inp (i + 1))
  · intro r0 h0
    obtain ⟨_, rfl⟩ := calculate_impact_getElem_inv nigeriaModel inp h0
    refine ⟨Step.new_reserves_ge nigeriaModel inp 0 _, ?_⟩
    have h33 : (stateAt nigeriaModel inp 0).foreign_reserves = 33 := by
      norm_num [stateAt, initState, nigeriaModel]
    have := Step.new_reserves_le nigeriaModel inp 0 (stateAt nigeriaModel inp 0)
      (by rw [h33]; norm_num)
    calc (Step.yearRecord nigeriaModel inp 0
          (stateAt nigeriaModel inp 0)).Foreign_Reserves
        ≤ (stateAt nigeriaModel inp 0).foreign_reserves := this
      _ = 33 := h33

theorem claim_C10_witness :
    (5 ≤ record1z.Foreign_Reserves
      ∧ record1z.Foreign_Reserves ≤ record0.Foreign_Reserves
      ∧ (9/10) * record0.Foreign_Reserves ≤ record1z.Foreign_Reserves)
    ∧ (5 ≤ record0.Foreign_Reserves ∧ record0.Foreign_Reserves ≤ 33) := by
  have h := claim_C10_reserves_monotone zeroInputs 2 0 record0 record1z
    (calculate_impact_getElem nigeriaModel zeroInputs (by norm_num))
    (calculate_impact_getElem nigeriaModel zeroInputs (by norm_num))
  exact ⟨h.1, h.2 record0
    (calculate_impact_getElem nigeriaModel zeroInputs (by norm_num))⟩

/-! ### Claim C4: monotonicity in the oil price shock -/

/-- The poverty, informality and non-oil-revenue components of the threaded
state do not depend on the oil price shock: two runs that differ only in
`oil_price_shock` agree on them in every year. -/
theorem stateAt_oil_shock_indep (inp : PolicyInputs) (s1 s2 : ℚ) (n : ℕ) :
    (stateAt nigeriaModel { inp with oil_price_shock := s1 } n).poverty_rate
        = (stateAt nigeriaModel { inp with oil_price_shock := s2 } n).poverty_rate
      ∧ (stateAt nigeriaModel { inp with oil_price_shock := s1 } n).informal_share
        = (stateAt nigeriaModel { inp with oil_price_shock := s2 } n).informal_share
      ∧ (stateAt nigeriaModel { inp with oil_price_shock := s1 } n).non_oil_revenue
        = (stateAt nigeriaModel { inp with oil_price_shock := s2 } n).non_oil_revenue := by
  induction n with
  | zero => exact ⟨rfl, rfl, rfl⟩
  | succ k ih =>
      obtain ⟨hp, hq, hn⟩ := ih
      refine ⟨?_, ?_, ?_⟩
      · show Step.poverty_rate _ k _ = Step.poverty_rate _ k _
        simp only [Step.poverty_rate, Step.reform_boost, calculate_reform_boost,
          hp, hq]
      · show Step.informal_share _ k _ = Step.informal_share _ k _
        simp only [Step.informal_share, Step.reform_boost, calculate_reform_boost,
          hp, hq]
      · show Step.non_oil_revenue _ k _ = Step.non_oil_revenue _ k _
        simp only [Step.non_oil_revenue, Step.effective_tax_change,
          Step.reform_boost, calculate_reform_boost, hp, hq, hn]

/-- C4: with all other inputs held fixed, a strictly larger oil price shock
produces strictly larger oil revenue and strictly larger total revenue in
every simulated year. -/
theorem claim_C4_oil_shock_monotone (inp : PolicyInputs) (s1 s2 : ℚ)
    (hs : s1 < s2) (years i : ℕ) (r1 r2 : YearRecord)
    (h1 : (calculate_impact nigeriaModel { inp with oil_price_shock := s1 }
      years)[i]? = some r1)
    (h2 : (calculate_impact nigeriaModel { inp with oil_price_shock := s2 }
      years)[i]? = some r2) :
    r1.Oil_Revenue < r2.Oil_Revenue ∧ r1.Total_Revenue < r2.Total_Revenue := by
  obtain ⟨hi1, rfl⟩ := calculate_impact_getElem_inv nigeriaModel _ h1
  obtain ⟨hi2, rfl⟩ := calculate_impact_getElem_inv nigeriaModel _ h2
  have hoil : Step.oil_revenue nigeriaModel { inp with oil_price_shock := s1 }
      < Step.oil_revenue nigeriaModel { inp with oil_price_shock := s2 } := by
    simp only [Step.oil_revenue, Step.current_oil_price, nigeriaModel]
    nlinarith
  have hnon : Step.non_oil_revenue { inp with oil_price_shock := s1 } i
        (stateAt nigeriaModel { inp with oil_price_shock := s1 } i)
      = Step.non_oil_revenue { inp with oil_price_shock := s2 } i
        (stateAt nigeriaModel { inp with oil_price_shock := s2 } i) := by
    obtain ⟨hp, hq, hn⟩ := stateAt_oil_shock_indep inp s1 s2 i
    simp only [Step.non_oil_revenue, Step.effective_tax_change, Step.reform_boost,
      calculate_reform_boost, hp, hq, hn]
  constructor
  · exact hoil
  · show Step.total_revenue nigeriaModel _ i _ < Step.total_revenue nigeriaModel _ i _
    simp only [Step.total_revenue]
    rw [hnon]
    exact add_lt_add_right hoil _

/-- Witness for C4: shocks 0 < 10 in year 1 of two otherwise-zero runs. -/
theorem claim_C4_witness :
    (Step.yearRecord nigeriaModel { zeroInputs with oil_price_shock := 0 } 0
        (stateAt nigeriaModel { zeroInputs with oil_price_shock := 0 } 0)).Oil_Revenue
      < (Step.yearRecord nigeriaModel { zeroInputs with oil_price_shock := 10 } 0
        (stateAt nigeriaModel { zeroInputs with oil_price_shock := 10 } 0)).Oil_Revenue
    ∧ (Step.yearRecord nigeriaModel { zeroInputs with oil_price_shock := 0 } 0
        (stateAt nigeriaModel { zeroInputs with oil_price_shock := 0 } 0)).Total_Revenue
      < (Step.yearRecord nigeriaModel { zeroInputs with oil_price_shock := 10 } 0
        (stateAt nigeriaModel { zeroInputs with oil_price_shock := 10 } 0)).Total_Revenue :=
  claim_C4_oil_shock_monotone zeroInputs 0 10 (by norm_num) 1 0 _ _
    (calculate_impact_getElem nigeriaModel _ (by norm_num))
    (calculate_impact_getElem nigeriaModel _ (by norm_num))

/-! ### Claim C6: the imports update formula -/

/-- Unfolding lemma for the new exchange rate. -/
theorem Step.new_exchange_rate_eq (m : Model) (inp : PolicyInputs) (year : ℕ)
    (s : SimState) :
    Step.new_exchange_rate m inp year s
      = m.exchange_rate * (1 + Step.exchange_rate_change m inp s / 100) := rfl

/-- Unfolding lemma for the growth effect of the exchange-rate move. -/
theorem Step.exchange_rate_impact_eq (m : Model) (inp : PolicyInputs) (year : ℕ)
    (s : SimState) :
    Step.exchange_rate_impact m inp year s
      = if Step.exchange_rate_change m inp s > 5 then -1
        else if Step.exchange_rate_change m inp s < -5 then 5/10
        else 0 := rfl

/-- C6 (amended): the recorded imports equal
`gdp(t) · import_ratio · (1 + effective_growth/100 · import_elasticity)`,
where `effective_growth` is the year's realized growth (the recorded
`GDP_Growth`), not the exogenous `growth_assumption`. -/
theorem claim_C6_imports_use_effective_growth (inp : PolicyInputs) (years i : ℕ)
    (r : YearRecord)
    (h : (calculate_impact nigeriaModel inp years)[i]? = some r) :
    r.Imports
      = r.GDP * nigeriaModel.import_share_gdp
        * (1 + r.GDP_Growth / 100 * nigeriaModel.import_elasticity) := by
  obtain ⟨hi, rfl⟩ := calculate_impact_getElem_inv nigeriaModel inp h
  rfl

theorem claim_C6_witness :
    record0.Imports
      = record0.GDP * nigeriaModel.import_share_gdp
        * (1 + record0.GDP_Growth / 100 * nigeriaModel.import_elasticity) :=
  claim_C6_imports_use_effective_growth zeroInputs 1 0 record0
    (calculate_impact_getElem nigeriaModel zeroInputs (by norm_num))

/-- C6 (counterexample): in year 1 of the all-zero run the realized growth
is nonzero, so the recorded imports differ from
`gdp(t) · import_ratio · (1 + growth_assumption/100 · import_elasticity)`
as claimed. -/
theorem claim_C6_counterexample :
    record0.Imports
      ≠ record0.GDP * nigeriaModel.import_share_gdp
        * (1 + zeroInputs.growth_assumption / 100 * nigeriaModel.import_elasticity) := by
  have hst : stateAt nigeriaModel zeroInputs 0 = initState nigeriaModel := rfl
  have hfi : Step.fiscal_impact nigeriaModel zeroInputs 0 (initState nigeriaModel)
      = 0 := by
    norm_num [Step.fiscal_impact, Step.effective_tax_change, Step.reform_boost,
      zeroInputs]
  have hmi : Step.monetary_impact nigeriaModel zeroInputs 0 (initState nigeriaModel)
      = -38/25 := by
    norm_num [Step.monetary_impact, Step.monetary, monetary_policy_reaction,
      rate_change_of, initState, nigeriaModel, zeroInputs]
  have hchg : Step.exchange_rate_change nigeriaModel zeroInputs
      (initState nigeriaModel) = 81/20 := by
    norm_num [Step.exchange_rate_change, exchange_rate_change_of,
      exchange_pressure_total, reserve_effect_of, Step.oil_revenue,
      Step.current_oil_price, initState, nigeriaModel, zeroInputs,
      min_def, max_def]
  have hxi : Step.exchange_rate_impact nigeriaModel zeroInputs 0
      (initState nigeriaModel) = 0 := by
    rw [Step.exchange_rate_impact_eq, hchg]
    norm_num
  have hnew : Step.new_exchange_rate nigeriaModel zeroInputs 0
      (initState nigeriaModel) = 6243/4 := by
    rw [Step.new_exchange_rate_eq, hchg]
    norm_num [nigeriaModel]
  have him : Step.import_effect nigeriaModel zeroInputs (initState nigeriaModel)
      = 0 := by
    norm_num [Step.import_effect, zeroInputs]
  have hex : Step.export_effect nigeriaModel zeroInputs 0 (initState nigeriaModel)
      = 2673/10000 := by
    simp only [Step.export_effect, hnew]
    norm_num [initState, nigeriaModel, zeroInputs, max_def]
  have hnt : Step.net_trade_effect nigeriaModel zeroInputs 0
      (initState nigeriaModel) = 2673/10000 := by
    rw [Step.net_trade_effect, him, hex]
    norm_num
  have hsi : Step.structural_impact zeroInputs 0 (initState nigeriaModel) = 0 := by
    norm_num [Step.structural_impact, Step.reform_boost, zeroInputs]
  have heb : Step.equality_boost zeroInputs (initState nigeriaModel) = 0 := by
    norm_num [Step.equality_boost, Step.distribution_impact, Step.incidence,
      calculate_fiscal_incidence, zeroInputs]
  have hrp : Step.risk_premium nigeriaModel zeroInputs (initState nigeriaModel)
      = 0 := by
    norm_num [Step.risk_premium, calculate_risk_premium, Step.debt_to_gdp,
      initState, nigeriaModel, zeroInputs, max_def]
  have hds : Step.debt_service nigeriaModel zeroInputs (initState nigeriaModel)
      = 105/4 := by
    simp only [Step.debt_service, Step.effective_interest_rate, hrp]
    norm_num [initState, nigeriaModel]
  have hco : Step.crowding_out_effect nigeriaModel zeroInputs
      (initState nigeriaModel) = 217/54 := by
    simp only [Step.crowding_out_effect, hds]
    norm_num [initState, nigeriaModel, max_def]
  have heg : Step.effective_growth nigeriaModel zeroInputs 0
      (initState nigeriaModel) = -1423229/270000 := by
    rw [Step.effective_growth, hfi, hmi, hxi, hnt, hsi, heb, hco]
    norm_num [zeroInputs]
  show Step.imports_after nigeriaModel zeroInputs 0 (stateAt nigeriaModel zeroInputs 0)
      ≠ Step.gdp nigeriaModel zeroInputs 0 (stateAt nigeriaModel zeroInputs 0)
        * nigeriaModel.import_share_gdp
        * (1 + zeroInputs.growth_assumption / 100 * nigeriaModel.import_elasticity)
  rw [hst, Step.imports_after, Step.gdp, heg]
  norm_num [initState, nigeriaModel, zeroInputs]

/-! ### Claim C7: the reserve effect in the external-sector module -/

/-- C7 (amended): the `reserve_effect` term of the exchange-rate pressure is
50 / 20 / 0 at thresholds 3 and 6, but the quantity compared against those
thresholds is `reserve_adequacy = reserves / (initial_gdp · 0.1)` — not the
import-months reserve cover `reserves / (initial_gdp · import_ratio / 12)`
used by the risk-premium module.  With the default reserves of 33 the
year-1 reserve effect is therefore 50, not 0. -/
theorem claim_C7_reserve_effect (reserves : ℚ) :
    (reserves / (nigeriaModel.initial_gdp * (1/10)) < 3 →
        reserve_effect_of nigeriaModel reserves = 50)
    ∧ (¬reserves / (nigeriaModel.initial_gdp * (1/10)) < 3 →
        reserves / (nigeriaModel.initial_gdp * (1/10)) < 6 →
        reserve_effect_of nigeriaModel reserves = 20)
    ∧ (¬reserves / (nigeriaModel.initial_gdp * (1/10)) < 6 →
        reserve_effect_of nigeriaModel reserves = 0)
    ∧ reserve_effect_of nigeriaModel nigeriaModel.foreign_reserves = 50 := by
  refine ⟨?_, ?_, ?_, ?_⟩
  · intro h
    unfold reserve_effect_of
    rw [if_pos h]
  · intro h1 h2
    unfold reserve_effect_of
    rw [if_neg h1, if_pos h2]
  · intro h
    unfold reserve_effect_of
    rw [if_neg (fun hlt => h (lt_trans hlt (by norm_num))), if_neg h]
  · norm_num [reserve_effect_of, nigeriaModel]

theorem claim_C7_witness :
    reserve_effect_of nigeriaModel 100 = 50
      ∧ reserve_effect_of nigeriaModel 250 = 20
      ∧ reserve_effect_of nigeriaModel 300 = 0
      ∧ reserve_effect_of nigeriaModel nigeriaModel.foreign_reserves = 50 :=
  ⟨(claim_C7_reserve_effect 100).1 (by norm_num [nigeriaModel]),
    (claim_C7_reserve_effect 250).2.1 (by norm_num [nigeriaModel])
      (by norm_num [nigeriaModel]),
    (claim_C7_reserve_effect 300).2.2.1 (by norm_num [nigeriaModel]),
    (claim_C7_reserve_effect 0).2.2.2⟩

/-- C7 (counterexample): with the default reserves of 33 the import-months
reserve cover is above 6 (≈ 6.29), yet the exchange-rate module's reserve
effect is not 0 — it is 50, because it divides by `initial_gdp · 0.1`
instead. -/
theorem claim_C7_counterexample :
    6 ≤ nigeriaModel.foreign_reserves
        / (nigeriaModel.initial_gdp * nigeriaModel.import_share_gdp / 12)
      ∧ reserve_effect_of nigeriaModel nigeriaModel.foreign_reserves ≠ 0 := by
  constructor
  · norm_num [nigeriaModel]
  · norm_num [reserve_effect_of, nigeriaModel]

/-! ### Claim C8: input validation -/

/-- Inputs far outside every declared slider range
(oil shock ∈ [−50, 100], growth ∈ [0, 8], tax ∈ [−20, 50],
spending ∈ [−30, 40]). -/
def extremeInputs : PolicyInputs :=
  ⟨1000, 1000, 1000, 1000, MonetaryResponse.automatic, false, false, false⟩

/-- C8 (amended): `calculate_impact` performs no input validation at all —
it is a total function that, for any numeric inputs whatsoever, simulates
exactly `years` yearly records, and for a non-positive horizon returns an
empty result instead of an error. -/
theorem claim_C8_no_validation (inp : PolicyInputs) (years : ℕ) :
    (calculate_impact nigeriaModel inp years).length = years
      ∧ calculate_impact nigeriaModel inp 0 = [] :=
  ⟨calculate_impact_length nigeriaModel inp years, rfl⟩

theorem claim_C8_witness :
    (calculate_impact nigeriaModel extremeInputs 5).length = 5
      ∧ calculate_impact nigeriaModel extremeInputs 0 = [] :=
  claim_C8_no_validation extremeInputs 5

/-- C8 (counterexample): with every lever three orders of magnitude beyond
its declared range, the engine still produces a full 3-year output — there
is no fail-fast validation error, contrary to the claim. -/
theorem claim_C8_counterexample :
    (calculate_impact nigeriaModel extremeInputs 3).length = 3 :=
  calculate_impact_length nigeriaModel extremeInputs 3
